import Mathlib

/-!
Shallow embedding of the self-bootstrap subsystem of `rye`
(`src/rye/src/bootstrap.rs`) and of its echo/TUI state machine
(`src/rye/src/tui.rs`).

Pure logic is translated directly; external effects (network, filesystem
probes, spawned helper processes, the interpreter catalog) are parameters of a
`World` record, and each operation returns, besides its `Except` result, the
list of observable side-effect events it performed, in order.  The few pieces
of repository code that live outside `src/` (the `PythonVersion` /
`PythonVersionRequest` conversions and the version ordering from
`sources/py.rs`) are modelled from the spec and carry a doc comment saying so.
-/

namespace Rye

/-! ## tui.rs -/

/-- Model of `EchoState` from `src/rye/src/tui.rs` (values 0/1/2 of the atomic `u8`
`ECHO_STATE`; every store in the source writes one of the three valid
discriminants, so the state is modelled by the enum itself). -/
inductive EchoState
  | STDOUT
  | STDERR
  | QUIET
deriving DecidableEq, Repr

/-- Output stream a printed echo line lands on. -/
inductive Stream
  | stdout
  | stderr
deriving DecidableEq, Repr

/-- Model of `RedirectGuard(u8)`: holds the echo state loaded when the guard was
created; `Drop` stores it back. -/
structure RedirectGuard where
  old : EchoState
deriving DecidableEq, Repr

/-- Model of `_print` (tui.rs): which stream an `echo!` line goes to, `none` when the
state is `QUIET` and the line is swallowed. -/
def printTarget : EchoState → Option Stream
  | .STDOUT => some .stdout
  | .STDERR => some .stderr
  | .QUIET => none

/-- Model of `redirect_to_stderr` (tui.rs): loads the old state, stores `STDERR` or
`STDOUT` according to `yes`, returns the guard holding the old state.
Result: (state after the call, guard). -/
def redirect_to_stderr (yes : Bool) (s : EchoState) : EchoState × RedirectGuard :=
  let old := s
  let state := if yes then EchoState.STDERR else EchoState.STDOUT
  (state, ⟨old⟩)

/-- Model of `quiet` (tui.rs), exactly as written in the source: after the conditional
store it performs a second, unconditional store of `QUIET`, so the final state
is `QUIET` for both arguments.  Result: (state after the call, guard). -/
def quiet (yes : Bool) (s : EchoState) : EchoState × RedirectGuard :=
  let old := s
  let s1 := if yes then EchoState.QUIET else EchoState.STDOUT
  let s2 := EchoState.QUIET
  -- s1 is the state between the two stores; s2 overwrites it unconditionally.
  let _ := s1
  (s2, ⟨old⟩)

/-- Model of `Drop for RedirectGuard`: stores the saved state back, whatever the
current state is. -/
def dropGuard (g : RedirectGuard) (_current : EchoState) : EchoState :=
  g.old

/-! ## Data model (bootstrap.rs and its collaborators) -/

/-- Bytes of a downloaded archive. -/
abbrev Bytes := List Nat

/-- Model of `CommandOutput` (utils.rs), threaded into every step. -/
inductive CommandOutput
  | Normal
  | Verbose
  | Quiet
deriving DecidableEq, Repr

/-- Model of `PythonVersionRequest` (sources/py.rs): symbolic query. -/
structure PythonVersionRequest where
  name : Option String
  arch : Option String
  os : Option String
  major : Nat
  minor : Option Nat
  patch : Option Nat
  suffix : Option String
deriving DecidableEq, Repr

/-- Model of `PythonVersion` (sources/py.rs): concretized interpreter version. -/
structure PythonVersion where
  name : String
  arch : String
  os : String
  major : Nat
  minor : Nat
  patch : Nat
  suffix : Option String
deriving DecidableEq, Repr

/-- Model of `SELF_VERSION` constant (bootstrap.rs line 38). -/
def SELF_VERSION : Nat := 14

/-- Model of `SELF_PYTHON_TARGET_VERSION` constant (bootstrap.rs lines 28-36). -/
def SELF_PYTHON_TARGET_VERSION : PythonVersionRequest :=
  { name := some "cpython", arch := none, os := none,
    major := 3, minor := some 12, patch := none, suffix := none }

/-- Model of `is_self_compatible_toolchain` (bootstrap.rs lines 263-265):
`version.name == "cpython" && version.major == 3 && version.minor >= 9 &&
version.minor <= 12`. -/
def is_self_compatible_toolchain (version : PythonVersion) : Bool :=
  version.name == "cpython" && version.major == 3 &&
    decide (version.minor ≥ 9) && decide (version.minor ≤ 12)

/-- Modelled from the spec: `PythonVersion::try_from(PythonVersionRequest)`
lives in `sources/py.rs`, which is not under `src/`.  Per spec §3 a request is
concrete iff major, minor and patch are all present, and only concrete
requests concretize; absent name/arch/os fields fall back to the reference
implementation and the platform defaults. -/
def pythonVersionTryFrom (defaultArch defaultOs : String)
    (req : PythonVersionRequest) : Option PythonVersion :=
  match req.minor, req.patch with
  | some minor, some patch =>
      some { name := req.name.getD "cpython",
             arch := req.arch.getD defaultArch,
             os := req.os.getD defaultOs,
             major := req.major, minor := minor, patch := patch,
             suffix := req.suffix }
  | _, _ => none

/-- Modelled from the spec: the `From<PythonVersion> for PythonVersionRequest`
conversion used by `fetch(&toolchain_version.into(), ..)` lives in
`sources/py.rs`; per spec §3 the concretized form carries every field. -/
def PythonVersion.toRequest (v : PythonVersion) : PythonVersionRequest :=
  { name := some v.name, arch := some v.arch, os := some v.os,
    major := v.major, minor := some v.minor, patch := some v.patch,
    suffix := v.suffix }

/-- Display form used in echo lines (the `Display` impl lives in
`sources/py.rs`; the exact rendering is immaterial to every claim). -/
def PythonVersion.display (v : PythonVersion) : String :=
  v.name ++ "@" ++ Nat.repr v.major ++ "." ++ Nat.repr v.minor ++ "."
    ++ Nat.repr v.patch

/-- Modelled from the spec: the total order on `PythonVersion` (spec §3:
"totally orderable by (implementation, major, minor, patch, suffix)"),
used by `.max()` in `ensure_latest_self_toolchain`. -/
def optSuffixLt (a b : Option String) : Bool :=
  match a, b with
  | none, some _ => true
  | some x, some y => decide (x < y)
  | _, _ => false

/-- Modelled from the spec: lexicographic strict order on
(implementation, major, minor, patch, suffix). -/
def pvLt (a b : PythonVersion) : Bool :=
  decide (a.name < b.name) ||
    (a.name == b.name &&
      (decide (a.major < b.major) ||
        (a.major == b.major &&
          (decide (a.minor < b.minor) ||
            (a.minor == b.minor &&
              (decide (a.patch < b.patch) ||
                (a.patch == b.patch && optSuffixLt a.suffix b.suffix)))))))

/-- Model of `Iterator::max` over a vector of versions (later maxima win ties, as in
Rust). -/
def listMax (l : List PythonVersion) : Option PythonVersion :=
  l.foldl
    (fun acc v =>
      match acc with
      | none => some v
      | some m => some (if pvLt m v then v else m))
    none

/-- Model of `UvDownload` (sources/uv.rs): helper download descriptor; the sha256 is
mandatory. -/
structure UvDownload where
  version : String
  url : String
  sha256 : String
deriving DecidableEq, Repr

/-- Model of `str::starts_with` on string slices, expressed on the character lists. -/
def strStartsWith (s p : String) : Bool := p.data.isPrefixOf s.data

/-- Accumulating decimal parser over the characters. -/
def parseU64Go (acc : Nat) : List Char → Option Nat
  | [] => some acc
  | c :: cs => if c.isDigit then parseU64Go (acc * 10 + (c.toNat - 48)) cs else none

/-- Models `str::parse::<u64>` as used on `tool-version.txt`: all characters
are decimal digits and there is at least one. -/
def parseU64 (s : String) : Option Nat :=
  if s.data.isEmpty then none else parseU64Go 0 s.data

/-! ## Observable side effects and errors -/

/-- One observable side effect, in the order the code performs them.  Each
write-like effect names the artifact it touches; the tool-version marker has
its own constructor because `write_tool_version` is the only code that writes
`<venv_dir>/tool-version.txt` (all other writes go to distinct fixed paths:
the marker json, shim files under `shims/`, the OS temp file). -/
inductive Event
  | netFetch (url : String)
  | catalogQuery
  | checksumOk
  | echo (msg : String)
  | createDir (dir : String)
  | unpackInto (dir : String)
  | removeSelfVenv
  | spawnVenv
  | spawnPip
  | spawnReq
  | writeTempReqs
  | writeVenvMarker
  | createShimsDir
  | removeShim (name : String)
  | writeShim (name : String)
  | writeToolVersion (contents : String)
deriving DecidableEq, Repr

/-- Failure kinds, one per `bail!`/`Err` site relevant to the claims; the
payload records the context the source attaches (e.g. the URL named by the
`with_context` of a checksum failure). -/
inductive Err
  | insecureDownload
  | downloadFailed (url : String)
  | httpStatus (code : Nat)
  | notFound
  | unknownVersion (req : PythonVersionRequest)
  | checksumMismatch (url : String)
  | unpackFailed (url : String) (dir : String)
  | ioError (path : String) (msg : String)
  | venvCreateHint (pyBin : String)
  | uvMissing
  | uvRequestFailed (msg : String)
  | toolchainUnavailable
  | unsupportedToolchain (v : PythonVersion)
  | missingSharedLibraries (libs : List String)
  | lddInvokeFailed
  | currentExeFailed
deriving DecidableEq, Repr

/-- HTTP response delivered by the transport (after redirects). -/
structure HttpResponse where
  code : Nat
  body : Bytes
deriving DecidableEq, Repr

/-- Environment of one process run: external collaborators (platform paths,
catalog, network transport, filesystem probes, helper processes) as oracles.
Filesystem state that the orchestrator itself mutates and re-reads
(`self/`, `tool-version.txt`, `shims/`) is threaded separately in `FS`. -/
structure World where
  /-- platform defaults used when concretizing a request (sources/py.rs) -/
  defaultArch : String
  defaultOs : String
  /-- Model of `get_app_dir()` (platform.rs) -/
  appDir : String
  /-- Model of `Path::is_file` on paths outside `self/` -/
  fileExists : String → Bool
  /-- Model of `Path::is_dir` / `Path::exists` on paths outside `self/` -/
  dirExists : String → Bool
  /-- success of `fs::create_dir_all` -/
  createDirOk : String → Bool
  /-- the curl transfer: transport error or response (bootstrap.rs 398-467) -/
  http : String → Except String HttpResponse
  /-- Model of `get_download_url` (sources/py.rs catalog): request ↦ (version, url, optional sha256) -/
  getDownloadUrl : PythonVersionRequest → Option (PythonVersion × String × Option String)
  /-- Model of `get_canonical_py_path` (platform.rs): `py/<version>` -/
  canonicalPath : PythonVersion → String
  /-- Model of `get_toolchain_python_bin` (platform.rs) -/
  pyBinPath : PythonVersion → String
  /-- Model of `check_checksum` (utils.rs): does the buffer hash to the hex digest? -/
  checksumMatches : Bytes → String → Bool
  /-- success of `unpack_archive` (utils.rs) -/
  unpackOk : Bytes → String → Bool
  /-- the post-unpack re-check of `uv_dir.exists() && uv_bin.is_file()` -/
  uvBinAfterUnpack : Bool
  /-- Model of `UvDownload::try_from(UvRequest::default())` (sources/uv.rs) -/
  uvDownload : Except String UvDownload
  /-- Model of `list_known_toolchains()` (platform.rs) -/
  knownToolchains : Except String (List PythonVersion)
  /-- Model of `latest_available_python_version` (pyproject.rs) -/
  latestAvailable : PythonVersionRequest → Option PythonVersion
  /-- Model of `ldd` run on the downloaded binary: spawn failure, or parsed list of
  `=> not found` libraries (deduplicated in parse order) -/
  lddOutput : Except String (List String)
  /-- Model of `uv venv --python <bin> <dir>`: spawn failure or exit code -/
  venvSpawn : Except String Nat
  /-- Model of `uv pip install --upgrade <pip>`: spawn failure or exit code -/
  pipSpawn : Except String Nat
  /-- Model of `uv pip install --upgrade -r <tmp>`: spawn failure or exit code -/
  reqSpawn : Except String Nat
  /-- Model of `NamedTempFile::new()` plus `writeln!` -/
  tempFileOk : Bool
  /-- Model of `fs::remove_dir_all(&venv_dir)` -/
  removeSelfOk : Bool
  /-- Model of `write_venv_marker` (pyproject.rs) -/
  writeMarkerOk : Bool
  /-- Model of `env::current_exe()` -/
  currentExe : Except String String
  /-- Model of `fs::create_dir_all(&shims)` -/
  createShimsOk : Bool
  /-- Model of `fs::hard_link(this, shim)` per shim path -/
  hardlinkOk : String → Bool
  /-- Model of `fs::copy(this, shim)` per shim path -/
  copyOk : String → Bool
  /-- Model of `fs::write(tool_version_path, ..)` -/
  writeToolVersionOk : Bool

/-! ## Download pipeline (bootstrap.rs lines 391-467) -/

/-- Model of `download_url_ignore_404` (bootstrap.rs lines 398-467).  The very first
statement rejects any URL that does not start with `https://`, before the
proxy configuration is consulted and before any transfer is set up; the
`netFetch` event marks the transfer actually being performed. -/
def download_url_ignore_404 (w : World) (url : String) (_output : CommandOutput) :
    Except Err (Option Bytes) × List Event :=
  if !(strStartsWith url "https://") then
    (.error .insecureDownload, [])
  else
    match w.http url with
    | .error _ => (.error (.downloadFailed url), [.netFetch url])
    | .ok resp =>
      if resp.code == 404 then
        (.ok none, [.netFetch url])
      else if !(decide (200 ≤ resp.code) && decide (resp.code < 300)) then
        (.error (.httpStatus resp.code), [.netFetch url])
      else
        (.ok (some resp.body), [.netFetch url])

/-- Model of `download_url` (bootstrap.rs lines 391-396): 404 becomes a hard error. -/
def download_url (w : World) (url : String) (output : CommandOutput) :
    Except Err Bytes × List Event :=
  match download_url_ignore_404 w url output with
  | (.ok (some result), tr) => (.ok result, tr)
  | (.ok none, tr) => (.error .notFound, tr)
  | (.error e, tr) => (.error e, tr)

/-! ## The uv helper (bootstrap.rs lines 469-560) -/

/-- Model of `struct Uv` (bootstrap.rs lines 471-475). -/
structure Uv where
  output : CommandOutput
  uv_bin : String
deriving DecidableEq, Repr

/-- Model of `Uv::download` (bootstrap.rs lines 498-516): download into the in-memory
buffer, check the mandatory sha256 on that buffer, and only then unpack into
`uv_dir`. -/
def Uv.download (w : World) (download : UvDownload) (uv_dir : String)
    (output : CommandOutput) : Except Err Unit × List Event :=
  match download_url w download.url output with
  | (.error e, tr) => (.error e, tr)
  | (.ok archive_buffer, tr) =>
    if w.checksumMatches archive_buffer download.sha256 then
      if w.unpackOk archive_buffer uv_dir then
        (.ok (), tr ++ [.checksumOk, .unpackInto uv_dir])
      else
        (.error (.unpackFailed download.url uv_dir),
         tr ++ [.checksumOk, .unpackInto uv_dir])
    else
      (.error (.checksumMismatch download.url), tr)

/-- Model of `Uv::ensure_exists` (bootstrap.rs lines 479-496). -/
def Uv.ensure_exists (w : World) (output : CommandOutput) :
    Except Err Uv × List Event :=
  match w.uvDownload with
  | .error e => (.error (.uvRequestFailed e), [])
  | .ok download =>
    let uv_dir := w.appDir ++ "/uv/" ++ download.version
    let uv_bin := uv_dir ++ "/uv"
    if w.dirExists uv_dir && w.fileExists uv_bin then
      (.ok { uv_bin := uv_bin, output := output }, [])
    else
      match Uv.download w download uv_dir output with
      | (.error e, tr) => (.error e, tr)
      | (.ok _, tr) =>
        if w.uvBinAfterUnpack then
          (.ok { uv_bin := uv_bin, output := output }, tr)
        else
          (.error .uvMissing, tr)

/-- Model of `struct UvWithVenv` (bootstrap.rs lines 563-567). -/
structure UvWithVenv where
  uv : Uv
  venv_path : String
  py_version : PythonVersion
deriving DecidableEq, Repr

/-- Model of `Uv::venv` (bootstrap.rs lines 537-559), exactly as written: `.status()`
only fails when the helper cannot be spawned, and that failure carries the
incompatible-interpreter-build hint via `with_context`; the exit code the
helper returns is dropped, so a helper that runs and exits non-zero still
yields `Ok(UvWithVenv)`. -/
def Uv.venv (w : World) (uv : Uv) (venv_dir : String) (py_bin : String)
    (version : PythonVersion) : Except Err UvWithVenv × List Event :=
  match w.venvSpawn with
  | .error _ => (.error (.venvCreateHint py_bin), [.spawnVenv])
  | .ok _exit_code =>
      (.ok { uv := uv, venv_path := venv_dir, py_version := version },
       [.spawnVenv])

/-- Model of `UvWithVenv::write_marker` (bootstrap.rs lines 584-586), delegating to
`write_venv_marker` (pyproject.rs). -/
def UvWithVenv.write_marker (w : World) (_v : UvWithVenv) :
    Except Err Unit × List Event :=
  if w.writeMarkerOk then
    (.ok (), [.writeVenvMarker])
  else
    (.error (.ioError "rye-venv.json" "could not write venv marker"), [])

/-- Model of `UvWithVenv::update_pip` (bootstrap.rs lines 594-609): like `Uv::venv`,
only a spawn failure is an error; the exit code is dropped. -/
def UvWithVenv.update_pip (w : World) (v : UvWithVenv) :
    Except Err Unit × List Event :=
  match w.pipSpawn with
  | .error _ =>
      (.error (.ioError v.venv_path "unable to update pip in venv"), [.spawnPip])
  | .ok _exit_code => (.ok (), [.spawnPip])

/-- Model of `UvWithVenv::update_requirements` (bootstrap.rs lines 611-630): write the
pinned requirement block to a temp file, then invoke the helper; again only a
spawn failure is an error. -/
def UvWithVenv.update_requirements (w : World) (v : UvWithVenv) :
    Except Err Unit × List Event :=
  if !w.tempFileOk then
    (.error (.ioError "tempfile" "could not create requirements tempfile"), [])
  else
    match w.reqSpawn with
    | .error _ =>
        (.error (.ioError v.venv_path "unable to update requirements in venv"),
         [.writeTempReqs, .spawnReq])
    | .ok _exit_code => (.ok (), [.writeTempReqs, .spawnReq])

/-- Model of `UvWithVenv::update` (bootstrap.rs lines 588-592). -/
def UvWithVenv.update (w : World) (v : UvWithVenv) :
    Except Err Unit × List Event :=
  match UvWithVenv.update_pip w v with
  | (.error e, tr) => (.error e, tr)
  | (.ok _, tr) =>
    match UvWithVenv.update_requirements w v with
    | (.error e, tr2) => (.error e, tr ++ tr2)
    | (.ok _, tr2) => (.ok (), tr ++ tr2)

/-- Model of `UvWithVenv::write_tool_version` (bootstrap.rs lines 632-637):
`fs::write(<venv_path>/tool-version.txt, version.to_string())`. -/
def UvWithVenv.write_tool_version (w : World) (v : UvWithVenv) (version : Nat) :
    Except Err Unit × List Event :=
  if w.writeToolVersionOk then
    (.ok (), [.writeToolVersion (Nat.repr version)])
  else
    (.error (.ioError (v.venv_path ++ "/tool-version.txt")
      "could not write tool version"), [])

/-! ## Interpreter provisioning (bootstrap.rs lines 262-389) -/

/-- Tail of `fetch` (bootstrap.rs lines 373-382): the `unpack_archive` call
and the final echoes, shared by the digest and no-digest paths. -/
def fetchUnpack (w : World) (v : PythonVersion) (url : String)
    (archive_buffer : Bytes) (target_dir : String) (output : CommandOutput)
    (tr : List Event) : Except Err PythonVersion × List Event :=
  let tr4 := tr ++
    (if output ≠ CommandOutput.Quiet then [Event.echo "Unpacking"] else []) ++
    [Event.unpackInto target_dir]
  if w.unpackOk archive_buffer target_dir then
    (.ok v,
     tr4 ++
       (if output ≠ CommandOutput.Quiet then
          [Event.echo ("Downloaded " ++ v.display)]
        else []))
  else
    (.error (.unpackFailed url target_dir), tr4)

/-- Model of `fetch` (bootstrap.rs lines 336-389) after the concrete-request early
return: catalog lookup onwards. -/
def fetchSlow (w : World) (version : PythonVersionRequest)
    (output : CommandOutput) : Except Err PythonVersion × List Event :=
  match w.getDownloadUrl version with
  | none => (.error (.unknownVersion version), [.catalogQuery])
  | some (v, url, sha256) =>
    let target_dir := w.canonicalPath v
    let target_py_bin := w.pyBinPath v
    let tr0 := [Event.catalogQuery] ++
      (if output = CommandOutput.Verbose then
         [Event.echo ("target dir: " ++ target_dir)]
       else [])
    if w.dirExists target_dir && w.fileExists target_py_bin then
      (.ok v,
       tr0 ++
         (if output = CommandOutput.Verbose then
            [Event.echo "Python version already downloaded. Skipping."]
          else []))
    else if !(w.createDirOk target_dir) then
      (.error (.ioError target_dir "failed to create target folder"), tr0)
    else
      let tr1 := tr0 ++ [Event.createDir target_dir] ++
        (if output = CommandOutput.Verbose then
           [Event.echo ("download url: " ++ url)]
         else []) ++
        (if output ≠ CommandOutput.Quiet then
           [Event.echo ("Downloading " ++ v.display)]
         else [])
      match download_url w url output with
      | (.error e, trD) => (.error e, tr1 ++ trD)
      | (.ok archive_buffer, trD) =>
        let tr2 := tr1 ++ trD
        match sha256 with
        | some sha =>
          let tr3 := tr2 ++
            (if output ≠ CommandOutput.Quiet then
               [Event.echo "Checking checksum"]
             else [])
          if w.checksumMatches archive_buffer sha then
            fetchUnpack w v url archive_buffer target_dir output
              (tr3 ++ [Event.checksumOk])
          else
            (.error (.checksumMismatch url), tr3)
        | none =>
          fetchUnpack w v url archive_buffer target_dir output
            (tr2 ++
              (if output ≠ CommandOutput.Quiet then
                 [Event.echo "Checksum check skipped (no hash available)"]
               else []))

/-- Model of `fetch` (bootstrap.rs lines 322-389).  Step order as in the source:
1. a concrete request whose toolchain binary is already on disk returns
   immediately (lines 326-334), before the catalog is consulted;
2. `get_download_url` (`catalogQuery`), `bail!("unknown version ..")` on miss;
3. early return when target dir and binary both exist;
4. `fs::create_dir_all(target_dir)`;
5. download into the in-memory buffer;
6. checksum check when the catalog supplied a digest, skip notice otherwise;
7. `unpack_archive` into the target dir. -/
def fetch (w : World) (version : PythonVersionRequest) (output : CommandOutput) :
    Except Err PythonVersion × List Event :=
  match pythonVersionTryFrom w.defaultArch w.defaultOs version with
  | some v =>
    if w.fileExists (w.pyBinPath v) then
      (.ok v,
       if output = CommandOutput.Verbose then
         [.echo "Python version already downloaded. Skipping."]
       else [])
    else fetchSlow w version output
  | none => fetchSlow w version output

/-- Model of `ensure_latest_self_toolchain` (bootstrap.rs lines 268-287): prefer the
greatest installed self-compatible toolchain, else fetch the compiled-in
default request. -/
def ensure_latest_self_toolchain (w : World) (output : CommandOutput) :
    Except Err PythonVersion × List Event :=
  match w.knownToolchains with
  | .error e => (.error (.ioError "toolchains" e), [])
  | .ok toolchains =>
    match listMax (toolchains.filter is_self_compatible_toolchain) with
    | some version =>
      (.ok version,
       if output ≠ CommandOutput.Quiet then
         [.echo ("Found a compatible Python version: " ++ version.display)]
       else [])
    | none => fetch w SELF_PYTHON_TARGET_VERSION output

/-- Model of `ensure_specific_self_toolchain` (bootstrap.rs lines 290-319). -/
def ensure_specific_self_toolchain (w : World) (output : CommandOutput)
    (toolchain_version_request : PythonVersionRequest) :
    Except Err PythonVersion × List Event :=
  match w.latestAvailable toolchain_version_request with
  | none => (.error .toolchainUnavailable, [])
  | some toolchain_version =>
    if !is_self_compatible_toolchain toolchain_version then
      (.error (.unsupportedToolchain toolchain_version), [])
    else if !(w.fileExists (w.pyBinPath toolchain_version)) then
      let tr := if output ≠ CommandOutput.Quiet then
          [Event.echo ("Fetching requested internal toolchain "
            ++ toolchain_version.display)]
        else []
      match fetch w toolchain_version.toRequest output with
      | (r, trF) => (r, tr ++ trF)
    else
      (.ok toolchain_version,
       if output ≠ CommandOutput.Quiet then
         [.echo ("Found a compatible Python version: "
           ++ toolchain_version.display)]
       else [])

/-- Model of `validate_shared_libraries` (bootstrap.rs lines 641-675), the
`target_os = "linux"` build: run `ldd`, collect the `=> not found` libraries
(unique, then sorted for the report), fail when any is missing.  Parsing and
sorting of the report are folded into the oracle / payload since no claim
depends on them. -/
def validate_shared_libraries (w : World) (_py : String) :
    Except Err Unit × List Event :=
  match w.lddOutput with
  | .error _ => (.error .lddInvokeFailed, [])
  | .ok missing =>
    if missing.isEmpty then (.ok (), [])
    else (.error (.missingSharedLibraries missing), [])

/-- Model of `update_core_shims` (bootstrap.rs lines 159-214), the
`target_os = "linux"` branch: for each of `python` and `python3`, best-effort
remove the old shim, try a hardlink, fall back to a copy, and fail only when
the copy fails too. -/
def installOneShim (w : World) (shim : String) (name : String) :
    Except Err Unit × List Event :=
  if w.hardlinkOk shim then
    (.ok (), [.removeShim name, .writeShim name])
  else if w.copyOk shim then
    (.ok (), [.removeShim name, .writeShim name])
  else
    (.error (.ioError shim ("tried to copy " ++ name ++ " shim")),
     [.removeShim name])

/-- see `installOneShim`. -/
def update_core_shims (w : World) (shims : String) (_this : String) :
    Except Err Unit × List Event :=
  match installOneShim w (shims ++ "/python") "python" with
  | (.error e, tr) => (.error e, tr)
  | (.ok _, tr) =>
    match installOneShim w (shims ++ "/python3") "python3" with
    | (.error e, tr2) => (.error e, tr ++ tr2)
    | (.ok _, tr2) => (.ok (), tr ++ tr2)

/-! ## Bootstrap orchestrator (bootstrap.rs lines 61-157) -/

/-- The part of the filesystem the orchestrator itself mutates and re-reads:
the `self/` directory, its `tool-version.txt` contents, and the `shims/`
directory. -/
structure FS where
  venvDir : Bool
  toolVersion : Option String
  shimsDir : Bool
deriving DecidableEq, Repr

/-- Process-global mutable state: the `FORCED_TO_UPDATE` atomic (bootstrap.rs
line 61) and the lazily computed `UP_TO_UPDATE` cache (lines 64-68). -/
structure ProcState where
  forcedToUpdate : Bool
  upToDateCache : Option Bool
deriving DecidableEq, Repr

/-- Model of `is_up_to_date` (bootstrap.rs lines 63-70): the `Lazy` cache reads
`<app_dir>/self/tool-version.txt` once per process and memoizes whether it
parses to `SELF_VERSION`; the result is OR-ed with `FORCED_TO_UPDATE`. -/
def is_up_to_date (st : ProcState) (fs : FS) : Bool × ProcState :=
  match st.upToDateCache with
  | some b => (b || st.forcedToUpdate, st)
  | none =>
    let b :=
      match fs.toolVersion with
      | some s => parseU64 s == some SELF_VERSION
      | none => false
    (b || st.forcedToUpdate, { st with upToDateCache := some b })

/-- The PROVISION arm of `ensure_self_venv_with_toolchain` (bootstrap.rs
lines 97-156): echo, ensure uv, ensure toolchain, validate shared libraries,
create the venv, write the venv marker, upgrade pip and install the pinned
requirements, ensure the shims directory, resolve the executable to link,
install the core shims, and only then write `tool-version.txt` and set
`FORCED_TO_UPDATE`. -/
def provision (w : World) (st : ProcState) (fs : FS) (output : CommandOutput)
    (toolchain_version_request : Option PythonVersionRequest) :
    Except Err String × List Event × ProcState × FS :=
  let app_dir := w.appDir
  let venv_dir := app_dir ++ "/self"
  let tr0 :=
    if output ≠ CommandOutput.Quiet then
      [Event.echo "Bootstrapping rye internals"]
    else []
  match Uv.ensure_exists w output with
  | (.error e, tr) => (.error e, tr0 ++ tr, st, fs)
  | (.ok uv, trUv) =>
    let tr1 := tr0 ++ trUv
    let toolchain :=
      match toolchain_version_request with
      | some version_request => ensure_specific_self_toolchain w output version_request
      | none => ensure_latest_self_toolchain w output
    match toolchain with
    | (.error e, tr) => (.error e, tr1 ++ tr, st, fs)
    | (.ok version, trT) =>
      let tr2 := tr1 ++ trT
      let py_bin := w.pyBinPath version
      match validate_shared_libraries w py_bin with
      | (.error e, tr) => (.error e, tr2 ++ tr, st, fs)
      | (.ok _, trV) =>
        let tr3 := tr2 ++ trV
        match Uv.venv w uv venv_dir py_bin version with
        | (.error e, tr) => (.error e, tr3 ++ tr, st, fs)
        | (.ok uv_venv, trW) =>
          -- uv has created (or repopulated) the self venv directory
          let fs := { fs with venvDir := true }
          let tr4 := tr3 ++ trW
          match UvWithVenv.write_marker w uv_venv with
          | (.error e, tr) => (.error e, tr4 ++ tr, st, fs)
          | (.ok _, trM) =>
            let tr5 := tr4 ++ trM
            match UvWithVenv.update w uv_venv with
            | (.error e, tr) => (.error e, tr5 ++ tr, st, fs)
            | (.ok _, trP) =>
              let tr6 := tr5 ++ trP
              let shims := app_dir ++ "/shims"
              let shimsStep :
                  (Except Err Unit × List Event) × FS :=
                if !fs.shimsDir then
                  if w.createShimsOk then
                    ((.ok (), [Event.createShimsDir]), { fs with shimsDir := true })
                  else
                    ((.error (.ioError shims "tried to create shim folder"), []), fs)
                else ((.ok (), []), fs)
              match shimsStep with
              | ((.error e, tr), fs) => (.error e, tr6 ++ tr, st, fs)
              | ((.ok _, trS), fs) =>
                let tr7 := tr6 ++ trS
                let thisExe : Except Err String :=
                  if w.fileExists (shims ++ "/rye") then .ok (shims ++ "/rye")
                  else
                    match w.currentExe with
                    | .ok p => .ok p
                    | .error _ => .error .currentExeFailed
                match thisExe with
                | .error e => (.error e, tr7, st, fs)
                | .ok this =>
                  match update_core_shims w shims this with
                  | (.error e, tr) => (.error e, tr7 ++ tr, st, fs)
                  | (.ok _, trH) =>
                    let tr8 := tr7 ++ trH
                    match UvWithVenv.write_tool_version w uv_venv SELF_VERSION with
                    | (.error e, tr) => (.error e, tr8 ++ tr, st, fs)
                    | (.ok _, trX) =>
                      let fs := { fs with
                        toolVersion := some (Nat.repr SELF_VERSION) }
                      let st := { st with forcedToUpdate := true }
                      (.ok venv_dir, tr8 ++ trX, st, fs)

/-- Model of `ensure_self_venv_with_toolchain` (bootstrap.rs lines 78-157): early
return when the venv directory exists and is up to date; tear the directory
down when it exists but is stale; then provision. -/
def ensure_self_venv_with_toolchain (w : World) (st : ProcState) (fs : FS)
    (output : CommandOutput)
    (toolchain_version_request : Option PythonVersionRequest) :
    Except Err String × List Event × ProcState × FS :=
  let venv_dir := w.appDir ++ "/self"
  if fs.venvDir then
    match is_up_to_date st fs with
    | (true, st) => (.ok venv_dir, [], st, fs)
    | (false, st) =>
      let tr :=
        if output ≠ CommandOutput.Quiet then
          [Event.echo "Detected outdated rye internals. Refreshing"]
        else []
      if w.removeSelfOk then
        let fs := { fs with venvDir := false, toolVersion := none }
        match provision w st fs output toolchain_version_request with
        | (r, tr2, st, fs) => (r, tr ++ [Event.removeSelfVenv] ++ tr2, st, fs)
      else
        (.error (.ioError venv_dir "could not remove self-venv for update"),
         tr, st, fs)
  else
    provision w st fs output toolchain_version_request

/-- Model of `ensure_self_venv` (bootstrap.rs lines 73-75). -/
def ensure_self_venv (w : World) (st : ProcState) (fs : FS)
    (output : CommandOutput) : Except Err String × List Event × ProcState × FS :=
  ensure_self_venv_with_toolchain w st fs output none

/-! ## Trace predicates -/

/-- Scanner: `seen` records whether a successful checksum check has already
occurred; an `unpackInto` event is acceptable only when it has. -/
def upcGo (seen : Bool) : List Event → Bool
  | [] => true
  | .checksumOk :: rest => upcGo true rest
  | .unpackInto _ :: rest => seen && upcGo seen rest
  | _ :: rest => upcGo seen rest

/-- Every `unpackInto` event in the trace is preceded by an earlier
`checksumOk` event. -/
def unpackPrecededByChecksum (tr : List Event) : Bool :=
  upcGo false tr

/-! ## Concrete sample environment (used by the witnesses) -/

/-- A concrete interpreter version. -/
def v3121 : PythonVersion :=
  { name := "cpython", arch := "x86_64", os := "linux",
    major := 3, minor := 12, patch := 1, suffix := none }

/-- A concrete, fully specified version request. -/
def req3121 : PythonVersionRequest := v3121.toRequest

/-- A world where every external step succeeds. -/
def wAll : World :=
  { defaultArch := "x86_64"
    defaultOs := "linux"
    appDir := "app"
    fileExists := fun _ => false
    dirExists := fun _ => false
    createDirOk := fun _ => true
    http := fun _ => .ok { code := 200, body := [7, 7, 7] }
    getDownloadUrl := fun _ => some (v3121, "https://example.invalid/cpython.tar.gz", some "abc")
    canonicalPath := fun v => "app/py/" ++ v.display
    pyBinPath := fun v => "app/py/" ++ v.display ++ "/install/bin/python3"
    checksumMatches := fun _ _ => true
    unpackOk := fun _ _ => true
    uvBinAfterUnpack := true
    uvDownload := .ok { version := "0.1.9", url := "https://example.invalid/uv.tar.gz", sha256 := "def" }
    knownToolchains := .ok []
    latestAvailable := fun _ => some v3121
    lddOutput := .ok []
    venvSpawn := .ok 0
    pipSpawn := .ok 0
    reqSpawn := .ok 0
    tempFileOk := true
    removeSelfOk := true
    writeMarkerOk := true
    currentExe := .ok "/usr/local/bin/rye"
    createShimsOk := true
    hardlinkOk := fun _ => true
    copyOk := fun _ => true
    writeToolVersionOk := true }

/-- Fresh process state: flag unset, lazy cache not yet computed. -/
def st0 : ProcState := { forcedToUpdate := false, upToDateCache := none }

/-- Empty app dir. -/
def fs0 : FS := { venvDir := false, toolVersion := none, shimsDir := false }

/-- A concrete `Uv` handle. -/
def uv0 : Uv := { output := CommandOutput.Normal, uv_bin := "app/uv/0.1.9/uv" }

/-- Model of `wAll`, except that the spawned `uv venv` process exits with status 1. -/
def wVenvExit1 : World := { wAll with venvSpawn := .ok 1 }

/-! ## C3 -/

/-- C3: `is_self_compatible_toolchain(v)` returns true iff `v`'s
implementation name is `"cpython"`, `v.major = 3`, and `9 ≤ v.minor ≤ 12`. -/
theorem is_self_compatible_toolchain_iff (v : PythonVersion) :
    is_self_compatible_toolchain v = true ↔
      v.name = "cpython" ∧ v.major = 3 ∧ 9 ≤ v.minor ∧ v.minor ≤ 12 := by
  simp [is_self_compatible_toolchain, and_assoc]

/-! ## C10 -/

/-- C10: for every prior echo state and boolean argument, dropping the
`RedirectGuard` returned by `quiet` or `redirect_to_stderr` restores the
global echo state to exactly the value it held immediately before the call,
whatever the state is at drop time; hence nesting the guards and dropping
them in reverse order leaves the state unchanged overall. -/
theorem redirect_guard_restores_state (s s' : EchoState) (yes₁ yes₂ : Bool) :
    dropGuard (quiet yes₁ s).2 s' = s ∧
    dropGuard (redirect_to_stderr yes₁ s).2 s' = s ∧
    dropGuard (quiet yes₁ s).2
      (dropGuard (redirect_to_stderr yes₂ (quiet yes₁ s).1).2
        (redirect_to_stderr yes₂ (quiet yes₁ s).1).1) = s :=
  ⟨rfl, rfl, rfl⟩

/-! ## C8 -/

/-- C8 (the code contradicts the intended contract): evaluating the source's
`quiet(false)` from the verbose state leaves the echo state `QUIET` — the
trailing unconditional store wins — so echo lines are swallowed instead of
printed.  The claim (and spec §4.1 / §9) says the state must not be `QUIET`
after `quiet(false)`. -/
theorem quiet_false_leaves_state_quiet :
    (quiet false EchoState.STDOUT).1 = EchoState.QUIET ∧
    printTarget (quiet false EchoState.STDOUT).1 = none :=
  ⟨rfl, rfl⟩

/-! ## C4 -/

/-- C4 (the code contradicts the spec): in a world where the helper spawns
fine and exits with status 1, `Uv::venv` still returns `Ok(UvWithVenv)` —
`.status()` only fails on spawn errors, and the exit code is dropped — so the
environment-creation step does not fail at all, let alone with the
incompatible-interpreter-builds hint (that hint is attached only to the
spawn-failure path). -/
theorem venv_ignores_nonzero_exit :
    wVenvExit1.venvSpawn = .ok 1 ∧
    Uv.venv wVenvExit1 uv0 "app/self" "app/py/bin" v3121 =
      (.ok { uv := uv0, venv_path := "app/self", py_version := v3121 },
       [.spawnVenv]) :=
  ⟨rfl, rfl⟩

/-! ## C5 -/

/-- The transfer trace of `download_url_ignore_404` is empty (insecure URL),
or the URL is https and exactly one transfer on it was performed. -/
theorem download_url_ignore_404_trace (w : World) (url : String)
    (output : CommandOutput) :
    (download_url_ignore_404 w url output).2 = [] ∨
    (strStartsWith url "https://" = true ∧
      (download_url_ignore_404 w url output).2 = [.netFetch url]) := by
  unfold download_url_ignore_404
  by_cases h : strStartsWith url "https://"
  · right
    refine ⟨h, ?_⟩
    simp only [h, Bool.not_true, Bool.false_eq_true, if_false]
    rcases w.http url with e | resp
    · rfl
    · dsimp only
      split
      · rfl
      · split <;> rfl
  · left
    simp [h]

/-- C5: a URL that does not begin with `https://` is rejected by
`download_url_ignore_404` and `download_url` with the insecure-scheme error
and an empty effect trace — before any network activity — and conversely any
trace that performed a transfer did so for the requested https URL. -/
theorem download_url_rejects_non_https (w : World) (url : String)
    (output : CommandOutput) :
    (strStartsWith url "https://" = false →
      download_url_ignore_404 w url output = (.error .insecureDownload, []) ∧
      download_url w url output = (.error .insecureDownload, [])) ∧
    (∀ u, Event.netFetch u ∈ (download_url_ignore_404 w url output).2 →
      u = url ∧ strStartsWith url "https://" = true) := by
  constructor
  · intro h
    refine ⟨?_, ?_⟩
    · simp [download_url_ignore_404, h]
    · simp [download_url, download_url_ignore_404, h]
  · intro u hu
    rcases download_url_ignore_404_trace w url output with htr | ⟨hs, htr⟩
    · rw [htr] at hu
      simp at hu
    · rw [htr] at hu
      simp at hu
      exact ⟨hu, hs⟩

/-- C5 witness: the concrete plain-http URL is refused with no event. -/
theorem download_url_rejects_non_https_witness :
    download_url wAll "http://mirror.invalid/cpython.tar.gz" CommandOutput.Normal
      = (.error .insecureDownload, []) :=
  ((download_url_rejects_non_https wAll "http://mirror.invalid/cpython.tar.gz"
      CommandOutput.Normal).1 (by decide)).2

/-! ## Download-pipeline helper lemmas -/

/-- The trace of `download_url` is the trace of the underlying transfer. -/
theorem download_url_trace (w : World) (url : String) (output : CommandOutput) :
    (download_url w url output).2 = [] ∨
    (download_url w url output).2 = [Event.netFetch url] := by
  have h := download_url_ignore_404_trace w url output
  unfold download_url
  rcases heq : download_url_ignore_404 w url output with ⟨r, tr⟩
  rw [heq] at h
  rcases r with e | b
  · exact h.imp id And.right
  · rcases b with _ | bytes
    · exact h.imp id And.right
    · exact h.imp id And.right

/-- A successful transfer: https URL, reachable, 2xx and not 404 deliver the
body with a single transfer event. -/
theorem download_url_ok (w : World) (url : String) (output : CommandOutput)
    (resp : HttpResponse)
    (h4 : strStartsWith url "https://" = true)
    (h5 : w.http url = .ok resp)
    (h6 : (resp.code == 404) = false)
    (h7 : (decide (200 ≤ resp.code) && decide (resp.code < 300)) = true) :
    download_url w url output = (.ok resp.body, [.netFetch url]) := by
  unfold download_url download_url_ignore_404
  simp [h4, h5, h6, h7]

/-! ## C7 -/

/-- Checksum-mismatch behavior of the slow path of `fetch`. -/
theorem fetchSlow_mismatch (w : World) (req : PythonVersionRequest)
    (output : CommandOutput) (v : PythonVersion) (url sha : String)
    (resp : HttpResponse)
    (hcat : w.getDownloadUrl req = some (v, url, some sha))
    (h2 : (w.dirExists (w.canonicalPath v) && w.fileExists (w.pyBinPath v)) = false)
    (h3 : w.createDirOk (w.canonicalPath v) = true)
    (h4 : strStartsWith url "https://" = true)
    (h5 : w.http url = .ok resp)
    (h6 : (resp.code == 404) = false)
    (h7 : (decide (200 ≤ resp.code) && decide (resp.code < 300)) = true)
    (h8 : w.checksumMatches resp.body sha = false) :
    (fetchSlow w req output).1 = .error (.checksumMismatch url) ∧
    ∀ d, Event.unpackInto d ∉ (fetchSlow w req output).2 := by
  unfold fetchSlow
  rw [hcat]
  simp only [h2, h3, Bool.not_true, Bool.false_eq_true, if_false,
    download_url_ok w url output resp h4 h5 h6 h7, h8]
  refine ⟨by simp, fun d => ?_⟩
  cases output <;> simp [List.mem_append]

/-- C7: an interpreter download whose declared digest does not match the
downloaded bytes makes `fetch` fail with the checksum-mismatch error naming
the URL; `unpack_archive` is never invoked, so nothing is written into the
target directory `py/<version>/` beyond its (empty) creation. -/
theorem fetch_mismatch_no_unpack (w : World) (req : PythonVersionRequest)
    (output : CommandOutput) (v : PythonVersion) (url sha : String)
    (resp : HttpResponse)
    (h1 : Option.all (fun vc => !(w.fileExists (w.pyBinPath vc)))
      (pythonVersionTryFrom w.defaultArch w.defaultOs req) = true)
    (hcat : w.getDownloadUrl req = some (v, url, some sha))
    (h2 : (w.dirExists (w.canonicalPath v) && w.fileExists (w.pyBinPath v)) = false)
    (h3 : w.createDirOk (w.canonicalPath v) = true)
    (h4 : strStartsWith url "https://" = true)
    (h5 : w.http url = .ok resp)
    (h6 : (resp.code == 404) = false)
    (h7 : (decide (200 ≤ resp.code) && decide (resp.code < 300)) = true)
    (h8 : w.checksumMatches resp.body sha = false) :
    (fetch w req output).1 = .error (.checksumMismatch url) ∧
    ∀ d, Event.unpackInto d ∉ (fetch w req output).2 := by
  unfold fetch
  rcases htf : pythonVersionTryFrom w.defaultArch w.defaultOs req with _ | vc
  · exact fetchSlow_mismatch w req output v url sha resp hcat h2 h3 h4 h5 h6 h7 h8
  · rw [htf] at h1
    simp only [Option.all, Bool.not_eq_true'] at h1
    simp only [h1, Bool.false_eq_true, if_false]
    exact fetchSlow_mismatch w req output v url sha resp hcat h2 h3 h4 h5 h6 h7 h8

/-- A world whose downloads never match their digests. -/
def wMismatch : World := { wAll with checksumMatches := fun _ _ => false }

/-- C7 witness: the concrete corrupted download fails naming the URL and
performs no unpack. -/
theorem fetch_mismatch_no_unpack_witness :
    (fetch wMismatch SELF_PYTHON_TARGET_VERSION CommandOutput.Normal).1 =
      .error (.checksumMismatch "https://example.invalid/cpython.tar.gz") ∧
    Event.unpackInto (wMismatch.canonicalPath v3121) ∉
      (fetch wMismatch SELF_PYTHON_TARGET_VERSION CommandOutput.Normal).2 := by
  have h := fetch_mismatch_no_unpack wMismatch SELF_PYTHON_TARGET_VERSION
    CommandOutput.Normal v3121 "https://example.invalid/cpython.tar.gz" "abc"
    { code := 200, body := [7, 7, 7] }
    (by decide) rfl rfl rfl (by decide) rfl (by decide) (by decide) rfl
  exact ⟨h.1, h.2 _⟩

/-! ## C2 -/

/-- When the early installed-version return cannot fire, `fetch` is the slow
path. -/
theorem fetch_eq_slow (w : World) (req : PythonVersionRequest)
    (output : CommandOutput)
    (h1 : Option.all (fun vc => !(w.fileExists (w.pyBinPath vc)))
      (pythonVersionTryFrom w.defaultArch w.defaultOs req) = true) :
    fetch w req output = fetchSlow w req output := by
  unfold fetch
  rcases htf : pythonVersionTryFrom w.defaultArch w.defaultOs req with _ | vc
  · rfl
  · rw [htf] at h1
    simp only [Option.all, Bool.not_eq_true'] at h1
    simp [h1]

/-- In `Uv::download` the (mandatory) digest check always precedes the
unpack. -/
theorem uv_download_scan (w : World) (d : UvDownload) (uv_dir : String)
    (output : CommandOutput) :
    unpackPrecededByChecksum (Uv.download w d uv_dir output).2 = true := by
  unfold Uv.download
  rcases heq : download_url w d.url output with ⟨r, tr⟩
  have htr := download_url_trace w d.url output
  rw [heq] at htr
  rcases r with e | buf <;> rcases htr with h | h <;> subst h <;> dsimp only <;>
    (repeat' split) <;> simp [unpackPrecededByChecksum, upcGo]

/-- In the slow path of `fetch`, when the catalog supplied a digest, every
unpack event is preceded by a successful checksum event. -/
theorem fetchSlow_digest_scan (w : World) (req : PythonVersionRequest)
    (output : CommandOutput) (v : PythonVersion) (url sha : String)
    (hcat : w.getDownloadUrl req = some (v, url, some sha)) :
    unpackPrecededByChecksum (fetchSlow w req output).2 = true := by
  unfold fetchSlow fetchUnpack
  rw [hcat]
  dsimp only
  split
  · cases output <;> simp [unpackPrecededByChecksum, upcGo]
  · split
    · cases output <;> simp [unpackPrecededByChecksum, upcGo]
    · rcases heq : download_url w url output with ⟨r, tr⟩
      have htr := download_url_trace w url output
      rw [heq] at htr
      rcases r with e | buf <;> rcases htr with h | h <;> subst h <;>
        cases output <;> dsimp only <;> (repeat' split) <;>
        simp_all [unpackPrecededByChecksum, upcGo]

/-- No-digest slow path: the download proceeds to unpack with a skip notice,
no checksum event, and never a checksum error. -/
theorem fetchSlow_no_digest (w : World) (req : PythonVersionRequest)
    (output : CommandOutput) (v : PythonVersion) (url : String)
    (resp : HttpResponse)
    (hcat : w.getDownloadUrl req = some (v, url, none))
    (h2 : (w.dirExists (w.canonicalPath v) && w.fileExists (w.pyBinPath v)) = false)
    (h3 : w.createDirOk (w.canonicalPath v) = true)
    (h4 : strStartsWith url "https://" = true)
    (h5 : w.http url = .ok resp)
    (h6 : (resp.code == 404) = false)
    (h7 : (decide (200 ≤ resp.code) && decide (resp.code < 300)) = true) :
    Event.unpackInto (w.canonicalPath v) ∈ (fetchSlow w req output).2 ∧
    (output ≠ CommandOutput.Quiet →
      Event.echo "Checksum check skipped (no hash available)" ∈
        (fetchSlow w req output).2) ∧
    Event.checksumOk ∉ (fetchSlow w req output).2 ∧
    (∀ u, (fetchSlow w req output).1 ≠ .error (.checksumMismatch u)) := by
  unfold fetchSlow
  rw [hcat]
  simp only [h2, h3, Bool.not_true, Bool.false_eq_true, if_false,
    download_url_ok w url output resp h4 h5 h6 h7]
  unfold fetchUnpack
  cases output <;> (repeat' split) <;> simp_all [List.mem_append]

/-- C2: every download that carries a known digest is verified in memory
before unpacking — a helper (`uv`) download always, an interpreter download
whenever the catalog entry supplies a sha256 — while an interpreter download
without a digest proceeds to unpack with only a skipped-checksum notice and
never a checksum error. -/
theorem checksum_verified_before_unpack (w : World) (output : CommandOutput) :
    (∀ d uv_dir, unpackPrecededByChecksum (Uv.download w d uv_dir output).2 = true) ∧
    (∀ req v url sha, w.getDownloadUrl req = some (v, url, some sha) →
      unpackPrecededByChecksum (fetch w req output).2 = true) ∧
    (∀ req v url resp,
      w.getDownloadUrl req = some (v, url, none) →
      (w.dirExists (w.canonicalPath v) && w.fileExists (w.pyBinPath v)) = false →
      w.createDirOk (w.canonicalPath v) = true →
      strStartsWith url "https://" = true →
      w.http url = .ok resp →
      (resp.code == 404) = false →
      (decide (200 ≤ resp.code) && decide (resp.code < 300)) = true →
      Option.all (fun vc => !(w.fileExists (w.pyBinPath vc)))
        (pythonVersionTryFrom w.defaultArch w.defaultOs req) = true →
      Event.unpackInto (w.canonicalPath v) ∈ (fetch w req output).2 ∧
      (output ≠ CommandOutput.Quiet →
        Event.echo "Checksum check skipped (no hash available)" ∈
          (fetch w req output).2) ∧
      Event.checksumOk ∉ (fetch w req output).2 ∧
      (∀ u, (fetch w req output).1 ≠ .error (.checksumMismatch u))) := by
  refine ⟨fun d uv_dir => uv_download_scan w d uv_dir output, ?_, ?_⟩
  · intro req v url sha hcat
    unfold fetch
    rcases pythonVersionTryFrom w.defaultArch w.defaultOs req with _ | vc
    · exact fetchSlow_digest_scan w req output v url sha hcat
    · dsimp only
      split
      · cases output <;> simp [unpackPrecededByChecksum, upcGo]
      · exact fetchSlow_digest_scan w req output v url sha hcat
  · intro req v url resp hcat h2 h3 h4 h5 h6 h7 h1
    rw [fetch_eq_slow w req output h1]
    exact fetchSlow_no_digest w req output v url resp hcat h2 h3 h4 h5 h6 h7

/-- A world whose interpreter catalog supplies no digest. -/
def wNoSha : World :=
  { wAll with getDownloadUrl :=
      fun _ => some (v3121, "https://example.invalid/cpython.tar.gz", none) }

/-- C2 witness: concrete helper and interpreter downloads with a digest are
check-then-unpack; the concrete digest-less interpreter download performs no
checksum event. -/
theorem checksum_verified_before_unpack_witness :
    unpackPrecededByChecksum
      (Uv.download wAll
        { version := "0.1.9", url := "https://example.invalid/uv.tar.gz",
          sha256 := "def" }
        "app/uv/0.1.9" CommandOutput.Normal).2 = true ∧
    unpackPrecededByChecksum
      (fetch wAll SELF_PYTHON_TARGET_VERSION CommandOutput.Normal).2 = true ∧
    Event.checksumOk ∉
      (fetch wNoSha SELF_PYTHON_TARGET_VERSION CommandOutput.Normal).2 := by
  have hA := checksum_verified_before_unpack wAll CommandOutput.Normal
  have hB := checksum_verified_before_unpack wNoSha CommandOutput.Normal
  refine ⟨hA.1 _ "app/uv/0.1.9",
    hA.2.1 SELF_PYTHON_TARGET_VERSION v3121
      "https://example.invalid/cpython.tar.gz" "abc" rfl, ?_⟩
  exact (hB.2.2 SELF_PYTHON_TARGET_VERSION v3121
    "https://example.invalid/cpython.tar.gz"
    { code := 200, body := [7, 7, 7] } rfl rfl rfl (by decide) rfl (by decide)
    (by decide) rfl).2.2.1

/-! ## Events of the individual provisioning steps -/

/-- Membership in a guard-gated trace segment. -/
@[simp] theorem event_mem_ite_nil {a : Event} {P : Prop} [Decidable P]
    {l : List Event} : (a ∈ if P then l else []) ↔ P ∧ a ∈ l := by
  split <;> simp_all

/-- Model of `download_url` never writes the tool-version marker. -/
theorem notw_download_url (w : World) (url : String) (output : CommandOutput) :
    ∀ c, Event.writeToolVersion c ∉ (download_url w url output).2 := by
  intro c
  rcases download_url_trace w url output with h | h <;> rw [h] <;> simp

/-- Model of `Uv::download` never writes the tool-version marker. -/
theorem notw_uv_download (w : World) (d : UvDownload) (uv_dir : String)
    (output : CommandOutput) :
    ∀ c, Event.writeToolVersion c ∉ (Uv.download w d uv_dir output).2 := by
  intro c
  unfold Uv.download
  rcases heq : download_url w d.url output with ⟨r, tr⟩
  have htr := notw_download_url w d.url output c
  rw [heq] at htr
  rcases r with e | buf <;> dsimp only <;> (repeat' split) <;> simp_all

/-- Model of `Uv::ensure_exists` never writes the tool-version marker. -/
theorem notw_uv_ensure (w : World) (output : CommandOutput) :
    ∀ c, Event.writeToolVersion c ∉ (Uv.ensure_exists w output).2 := by
  intro c
  unfold Uv.ensure_exists
  rcases w.uvDownload with e | d <;> dsimp only
  · simp
  · split
    · simp
    · rcases heq : Uv.download w d (w.appDir ++ "/uv/" ++ d.version) output
        with ⟨r, tr⟩
      have htr := notw_uv_download w d (w.appDir ++ "/uv/" ++ d.version) output c
      rw [heq] at htr
      rcases r with e2 | u <;> dsimp only <;> (repeat' split) <;> simp_all

/-- The slow path of `fetch` never writes the tool-version marker. -/
theorem notw_fetchSlow (w : World) (req : PythonVersionRequest)
    (output : CommandOutput) :
    ∀ c, Event.writeToolVersion c ∉ (fetchSlow w req output).2 := by
  intro c
  unfold fetchSlow fetchUnpack
  rcases w.getDownloadUrl req with _ | ⟨v, url, sha⟩ <;> dsimp only
  · simp
  · split
    · simp [List.mem_append]
    · split
      · simp [List.mem_append]
      · rcases heq : download_url w url output with ⟨r, tr⟩
        have htr := notw_download_url w url output c
        rw [heq] at htr
        rcases r with e | buf <;> dsimp only <;> (repeat' split) <;>
          simp_all [List.mem_append]

/-- Model of `fetch` never writes the tool-version marker. -/
theorem notw_fetch (w : World) (req : PythonVersionRequest)
    (output : CommandOutput) :
    ∀ c, Event.writeToolVersion c ∉ (fetch w req output).2 := by
  intro c
  unfold fetch
  rcases pythonVersionTryFrom w.defaultArch w.defaultOs req with _ | vc <;>
    dsimp only
  · exact notw_fetchSlow w req output c
  · split
    · simp
    · exact notw_fetchSlow w req output c

/-- Model of `ensure_latest_self_toolchain` never writes the tool-version marker. -/
theorem notw_ensure_latest (w : World) (output : CommandOutput) :
    ∀ c, Event.writeToolVersion c ∉ (ensure_latest_self_toolchain w output).2 := by
  intro c
  unfold ensure_latest_self_toolchain
  rcases w.knownToolchains with e | l <;> dsimp only
  · simp
  · rcases listMax (l.filter is_self_compatible_toolchain) with _ | v <;>
      dsimp only
    · exact notw_fetch w SELF_PYTHON_TARGET_VERSION output c
    · simp

/-- Model of `ensure_specific_self_toolchain` never writes the tool-version marker. -/
theorem notw_ensure_specific (w : World) (output : CommandOutput)
    (req : PythonVersionRequest) :
    ∀ c, Event.writeToolVersion c ∉
      (ensure_specific_self_toolchain w output req).2 := by
  intro c
  unfold ensure_specific_self_toolchain
  rcases w.latestAvailable req with _ | tv <;> dsimp only
  · simp
  · split
    · simp
    · split
      · rcases heq : fetch w tv.toRequest output with ⟨r, trF⟩
        have htr := notw_fetch w tv.toRequest output c
        rw [heq] at htr
        dsimp only
        simp_all [List.mem_append]
      · simp

/-- The toolchain-selection step of the orchestrator never writes the
tool-version marker. -/
theorem notw_toolchain (w : World) (output : CommandOutput)
    (tcr : Option PythonVersionRequest) :
    ∀ c, Event.writeToolVersion c ∉
      (match tcr with
       | some version_request =>
           ensure_specific_self_toolchain w output version_request
       | none => ensure_latest_self_toolchain w output).2 := by
  rcases tcr with _ | r
  · exact notw_ensure_latest w output
  · exact notw_ensure_specific w output r

/-- Model of `validate_shared_libraries` never writes the tool-version marker. -/
theorem notw_validate (w : World) (py : String) :
    ∀ c, Event.writeToolVersion c ∉ (validate_shared_libraries w py).2 := by
  intro c
  unfold validate_shared_libraries
  rcases w.lddOutput with e | l <;> dsimp only <;> (repeat' split) <;> simp

/-- Model of `Uv::venv` never writes the tool-version marker. -/
theorem notw_venv (w : World) (uv : Uv) (venv_dir py_bin : String)
    (version : PythonVersion) :
    ∀ c, Event.writeToolVersion c ∉ (Uv.venv w uv venv_dir py_bin version).2 := by
  intro c
  unfold Uv.venv
  rcases w.venvSpawn with e | code <;> simp

/-- Model of `UvWithVenv::write_marker` never writes the tool-version marker. -/
theorem notw_write_marker (w : World) (v : UvWithVenv) :
    ∀ c, Event.writeToolVersion c ∉ (UvWithVenv.write_marker w v).2 := by
  intro c
  unfold UvWithVenv.write_marker
  split <;> simp

/-- Model of `UvWithVenv::update` never writes the tool-version marker. -/
theorem notw_update (w : World) (v : UvWithVenv) :
    ∀ c, Event.writeToolVersion c ∉ (UvWithVenv.update w v).2 := by
  intro c
  unfold UvWithVenv.update UvWithVenv.update_pip UvWithVenv.update_requirements
  rcases w.pipSpawn with e | code <;> dsimp only
  · simp
  · rcases w.tempFileOk with _ | _ <;> rcases w.reqSpawn with e2 | code2 <;>
      simp

/-- Model of `update_core_shims` never writes the tool-version marker. -/
theorem notw_update_core_shims (w : World) (shims this : String) :
    ∀ c, Event.writeToolVersion c ∉ (update_core_shims w shims this).2 := by
  intro c
  unfold update_core_shims installOneShim
  rcases w.hardlinkOk (shims ++ "/python") with _ | _ <;>
    rcases w.copyOk (shims ++ "/python") with _ | _ <;>
    rcases w.hardlinkOk (shims ++ "/python3") with _ | _ <;>
    rcases w.copyOk (shims ++ "/python3") with _ | _ <;>
    simp

/-! ## C1 -/

/-- The last element of a list with a nonempty tail prefixed by one element. -/
theorem getLast?_cons_of (x : Event) (l : List Event) (a : Event)
    (h : l.getLast? = some a) : (x :: l).getLast? = some a := by
  cases l with
  | nil => simp at h
  | cons y ys => rw [List.getLast?_cons_cons]; exact h

/-- The last element of an append is the last element of the right part. -/
theorem getLast?_app (l₁ l₂ : List Event) (a : Event)
    (h : l₂.getLast? = some a) : (l₁ ++ l₂).getLast? = some a := by
  induction l₁ with
  | nil => simpa using h
  | cons x xs ih => rw [List.cons_append]; exact getLast?_cons_of x _ a ih

/-- Behavior of the PROVISION arm: a `tool-version.txt` write carries the
decimal `SELF_VERSION`, happens only on the all-steps-succeeded path and is
the final observable effect; any failing step yields an error result with no
such write; and a successful run returns the venv path with the
forced-up-to-date flag set and the venv directory present. -/
theorem provision_spec (w : World) (st : ProcState) (fs : FS)
    (output : CommandOutput) (tcr : Option PythonVersionRequest) :
    (∀ e, (provision w st fs output tcr).1 = .error e →
      ∀ c, Event.writeToolVersion c ∉ (provision w st fs output tcr).2.1) ∧
    (∀ c, Event.writeToolVersion c ∈ (provision w st fs output tcr).2.1 →
      c = Nat.repr SELF_VERSION ∧
      (provision w st fs output tcr).1 = .ok (w.appDir ++ "/self") ∧
      (provision w st fs output tcr).2.1.getLast? =
        some (Event.writeToolVersion c)) ∧
    (∀ p, (provision w st fs output tcr).1 = .ok p →
      p = w.appDir ++ "/self" ∧
      (provision w st fs output tcr).2.2.1.forcedToUpdate = true ∧
      (provision w st fs output tcr).2.2.2.venvDir = true) := by
  unfold provision
  rcases h1 : Uv.ensure_exists w output with ⟨r1, tr1⟩
  have n1 := notw_uv_ensure w output
  rw [h1] at n1
  replace n1 : ∀ c, Event.writeToolVersion c ∉ tr1 := n1
  rcases r1 with e1 | uv <;> dsimp only
  · exact ⟨fun e he c hc => by simp [List.mem_append, n1 c] at hc,
      fun c hc => by simp [List.mem_append, n1 c] at hc,
      fun p hp => by simp at hp⟩
  rcases h2 : (match tcr with
    | some version_request =>
        ensure_specific_self_toolchain w output version_request
    | none => ensure_latest_self_toolchain w output) with ⟨r2, tr2⟩
  have n2 := notw_toolchain w output tcr
  rw [h2] at n2
  replace n2 : ∀ c, Event.writeToolVersion c ∉ tr2 := n2
  try rw [h2]
  rcases r2 with e2 | version <;> dsimp only
  · exact ⟨fun e he c hc => by simp [List.mem_append, n1 c, n2 c] at hc,
      fun c hc => by simp [List.mem_append, n1 c, n2 c] at hc,
      fun p hp => by simp at hp⟩
  rcases h3 : validate_shared_libraries w (w.pyBinPath version) with ⟨r3, tr3⟩
  have n3 := notw_validate w (w.pyBinPath version)
  rw [h3] at n3
  replace n3 : ∀ c, Event.writeToolVersion c ∉ tr3 := n3
  try rw [h3]
  rcases r3 with e3 | u3 <;> dsimp only
  · exact ⟨fun e he c hc => by simp [List.mem_append, n1 c, n2 c, n3 c] at hc,
      fun c hc => by simp [List.mem_append, n1 c, n2 c, n3 c] at hc,
      fun p hp => by simp at hp⟩
  rcases h4 : Uv.venv w uv (w.appDir ++ "/self") (w.pyBinPath version) version
    with ⟨r4, tr4⟩
  have n4 := notw_venv w uv (w.appDir ++ "/self") (w.pyBinPath version) version
  rw [h4] at n4
  replace n4 : ∀ c, Event.writeToolVersion c ∉ tr4 := n4
  try rw [h4]
  rcases r4 with e4 | uv_venv <;> dsimp only
  · exact ⟨fun e he c hc => by
        simp [List.mem_append, n1 c, n2 c, n3 c, n4 c] at hc,
      fun c hc => by simp [List.mem_append, n1 c, n2 c, n3 c, n4 c] at hc,
      fun p hp => by simp at hp⟩
  rcases h5 : UvWithVenv.write_marker w uv_venv with ⟨r5, tr5⟩
  have n5 := notw_write_marker w uv_venv
  rw [h5] at n5
  replace n5 : ∀ c, Event.writeToolVersion c ∉ tr5 := n5
  try rw [h5]
  rcases r5 with e5 | u5 <;> dsimp only
  · exact ⟨fun e he c hc => by
        simp [List.mem_append, n1 c, n2 c, n3 c, n4 c, n5 c] at hc,
      fun c hc => by
        simp [List.mem_append, n1 c, n2 c, n3 c, n4 c, n5 c] at hc,
      fun p hp => by simp at hp⟩
  rcases h6 : UvWithVenv.update w uv_venv with ⟨r6, tr6⟩
  have n6 := notw_update w uv_venv
  rw [h6] at n6
  replace n6 : ∀ c, Event.writeToolVersion c ∉ tr6 := n6
  try rw [h6]
  rcases r6 with e6 | u6 <;> dsimp only
  · exact ⟨fun e he c hc => by
        simp [List.mem_append, n1 c, n2 c, n3 c, n4 c, n5 c, n6 c] at hc,
      fun c hc => by
        simp [List.mem_append, n1 c, n2 c, n3 c, n4 c, n5 c, n6 c] at hc,
      fun p hp => by simp at hp⟩
  by_cases hsh : fs.shimsDir = true
  · simp only [hsh, Bool.not_true, eq_self_iff_true, if_true, Bool.false_eq_true, if_false]
    (try dsimp only)
    by_cases hfe : w.fileExists (w.appDir ++ "/shims" ++ "/rye") = true
    · simp only [hfe, eq_self_iff_true, if_true, Bool.false_eq_true, if_false]
      (try dsimp only)
      rcases h7 : update_core_shims w (w.appDir ++ "/shims") (w.appDir ++ "/shims" ++ "/rye") with ⟨r7, tr7⟩
      have n7 := notw_update_core_shims w (w.appDir ++ "/shims") (w.appDir ++ "/shims" ++ "/rye")
      rw [h7] at n7
      replace n7 : ∀ c, Event.writeToolVersion c ∉ tr7 := n7
      try rw [h7]
      rcases r7 with e7 | u7 <;> (try dsimp only)
      · exact ⟨fun e he c hc => by
            simp [List.mem_append, n1 c, n2 c, n3 c, n4 c, n5 c, n6 c, n7 c] at hc,
          fun c hc => by
            simp [List.mem_append, n1 c, n2 c, n3 c, n4 c, n5 c, n6 c, n7 c] at hc,
          fun p hp => by simp at hp⟩
      unfold UvWithVenv.write_tool_version
      by_cases hwt : w.writeToolVersionOk = true
      · simp only [hwt, eq_self_iff_true, if_true, Bool.false_eq_true, if_false]
        (try dsimp only)
        refine ⟨fun e he => by simp at he, fun c hc => ?_, fun p hp => ?_⟩
        · have hcv : c = Nat.repr SELF_VERSION := by
            simp [List.mem_append, n1 c, n2 c, n3 c, n4 c, n5 c, n6 c, n7 c] at hc
            exact hc
          subst hcv
          refine ⟨by simp, by simp, ?_⟩
          repeat first
            | exact rfl
            | apply getLast?_app
            | apply getLast?_cons_of
        · simp only [Except.ok.injEq] at hp
          exact ⟨hp.symm, by simp, by simp⟩
      · simp only [Bool.not_eq_true] at hwt
        simp only [hwt, eq_self_iff_true, if_true, Bool.false_eq_true, if_false]
        (try dsimp only)
        exact ⟨fun e he c hc => by
            simp [List.mem_append, n1 c, n2 c, n3 c, n4 c, n5 c, n6 c, n7 c] at hc,
          fun c hc => by
            simp [List.mem_append, n1 c, n2 c, n3 c, n4 c, n5 c, n6 c, n7 c] at hc,
          fun p hp => by simp at hp⟩
    · simp only [Bool.not_eq_true] at hfe
      simp only [hfe, eq_self_iff_true, if_true, Bool.false_eq_true, if_false]
      (try dsimp only)
      rcases w.currentExe with eEx | pth <;> (try dsimp only)
      · exact ⟨fun e he c hc => by
            simp [List.mem_append, n1 c, n2 c, n3 c, n4 c, n5 c, n6 c] at hc,
          fun c hc => by
            simp [List.mem_append, n1 c, n2 c, n3 c, n4 c, n5 c, n6 c] at hc,
          fun p hp => by simp at hp⟩
      · rcases h7 : update_core_shims w (w.appDir ++ "/shims") pth with ⟨r7, tr7⟩
        have n7 := notw_update_core_shims w (w.appDir ++ "/shims") pth
        rw [h7] at n7
        replace n7 : ∀ c, Event.writeToolVersion c ∉ tr7 := n7
        try rw [h7]
        rcases r7 with e7 | u7 <;> (try dsimp only)
        · exact ⟨fun e he c hc => by
              simp [List.mem_append, n1 c, n2 c, n3 c, n4 c, n5 c, n6 c, n7 c] at hc,
            fun c hc => by
              simp [List.mem_append, n1 c, n2 c, n3 c, n4 c, n5 c, n6 c, n7 c] at hc,
            fun p hp => by simp at hp⟩
        unfold UvWithVenv.write_tool_version
        by_cases hwt : w.writeToolVersionOk = true
        · simp only [hwt, eq_self_iff_true, if_true, Bool.false_eq_true, if_false]
          (try dsimp only)
          refine ⟨fun e he => by simp at he, fun c hc => ?_, fun p hp => ?_⟩
          · have hcv : c = Nat.repr SELF_VERSION := by
              simp [List.mem_append, n1 c, n2 c, n3 c, n4 c, n5 c, n6 c, n7 c] at hc
              exact hc
            subst hcv
            refine ⟨by simp, by simp, ?_⟩
            repeat first
              | exact rfl
              | apply getLast?_app
              | apply getLast?_cons_of
          · simp only [Except.ok.injEq] at hp
            exact ⟨hp.symm, by simp, by simp⟩
        · simp only [Bool.not_eq_true] at hwt
          simp only [hwt, eq_self_iff_true, if_true, Bool.false_eq_true, if_false]
          (try dsimp only)
          exact ⟨fun e he c hc => by
              simp [List.mem_append, n1 c, n2 c, n3 c, n4 c, n5 c, n6 c, n7 c] at hc,
            fun c hc => by
              simp [List.mem_append, n1 c, n2 c, n3 c, n4 c, n5 c, n6 c, n7 c] at hc,
            fun p hp => by simp at hp⟩
  · simp only [Bool.not_eq_true] at hsh
    simp only [hsh, Bool.not_false, eq_self_iff_true, if_true, Bool.false_eq_true, if_false]
    (try dsimp only)
    by_cases hcr : w.createShimsOk = true
    · simp only [hcr, eq_self_iff_true, if_true, Bool.false_eq_true, if_false]
      (try dsimp only)
      by_cases hfe : w.fileExists (w.appDir ++ "/shims" ++ "/rye") = true
      · simp only [hfe, eq_self_iff_true, if_true, Bool.false_eq_true, if_false]
        (try dsimp only)
        rcases h7 : update_core_shims w (w.appDir ++ "/shims") (w.appDir ++ "/shims" ++ "/rye") with ⟨r7, tr7⟩
        have n7 := notw_update_core_shims w (w.appDir ++ "/shims") (w.appDir ++ "/shims" ++ "/rye")
        rw [h7] at n7
        replace n7 : ∀ c, Event.writeToolVersion c ∉ tr7 := n7
        try rw [h7]
        rcases r7 with e7 | u7 <;> (try dsimp only)
        · exact ⟨fun e he c hc => by
              simp [List.mem_append, n1 c, n2 c, n3 c, n4 c, n5 c, n6 c, n7 c] at hc,
            fun c hc => by
              simp [List.mem_append, n1 c, n2 c, n3 c, n4 c, n5 c, n6 c, n7 c] at hc,
            fun p hp => by simp at hp⟩
        unfold UvWithVenv.write_tool_version
        by_cases hwt : w.writeToolVersionOk = true
        · simp only [hwt, eq_self_iff_true, if_true, Bool.false_eq_true, if_false]
          (try dsimp only)
          refine ⟨fun e he => by simp at he, fun c hc => ?_, fun p hp => ?_⟩
          · have hcv : c = Nat.repr SELF_VERSION := by
              simp [List.mem_append, n1 c, n2 c, n3 c, n4 c, n5 c, n6 c, n7 c] at hc
              exact hc
            subst hcv
            refine ⟨by simp, by simp, ?_⟩
            repeat first
              | exact rfl
              | apply getLast?_app
              | apply getLast?_cons_of
          · simp only [Except.ok.injEq] at hp
            exact ⟨hp.symm, by simp, by simp⟩
        · simp only [Bool.not_eq_true] at hwt
          simp only [hwt, eq_self_iff_true, if_true, Bool.false_eq_true, if_false]
          (try dsimp only)
          exact ⟨fun e he c hc => by
              simp [List.mem_append, n1 c, n2 c, n3 c, n4 c, n5 c, n6 c, n7 c] at hc,
            fun c hc => by
              simp [List.mem_append, n1 c, n2 c, n3 c, n4 c, n5 c, n6 c, n7 c] at hc,
            fun p hp => by simp at hp⟩
      · simp only [Bool.not_eq_true] at hfe
        simp only [hfe, eq_self_iff_true, if_true, Bool.false_eq_true, if_false]
        (try dsimp only)
        rcases w.currentExe with eEx | pth <;> (try dsimp only)
        · exact ⟨fun e he c hc => by
              simp [List.mem_append, n1 c, n2 c, n3 c, n4 c, n5 c, n6 c] at hc,
            fun c hc => by
              simp [List.mem_append, n1 c, n2 c, n3 c, n4 c, n5 c, n6 c] at hc,
            fun p hp => by simp at hp⟩
        · rcases h7 : update_core_shims w (w.appDir ++ "/shims") pth with ⟨r7, tr7⟩
          have n7 := notw_update_core_shims w (w.appDir ++ "/shims") pth
          rw [h7] at n7
          replace n7 : ∀ c, Event.writeToolVersion c ∉ tr7 := n7
          try rw [h7]
          rcases r7 with e7 | u7 <;> (try dsimp only)
          · exact ⟨fun e he c hc => by
                simp [List.mem_append, n1 c, n2 c, n3 c, n4 c, n5 c, n6 c, n7 c] at hc,
              fun c hc => by
                simp [List.mem_append, n1 c, n2 c, n3 c, n4 c, n5 c, n6 c, n7 c] at hc,
              fun p hp => by simp at hp⟩
          unfold UvWithVenv.write_tool_version
          by_cases hwt : w.writeToolVersionOk = true
          · simp only [hwt, eq_self_iff_true, if_true, Bool.false_eq_true, if_false]
            (try dsimp only)
            refine ⟨fun e he => by simp at he, fun c hc => ?_, fun p hp => ?_⟩
            · have hcv : c = Nat.repr SELF_VERSION := by
                simp [List.mem_append, n1 c, n2 c, n3 c, n4 c, n5 c, n6 c, n7 c] at hc
                exact hc
              subst hcv
              refine ⟨by simp, by simp, ?_⟩
              repeat first
                | exact rfl
                | apply getLast?_app
                | apply getLast?_cons_of
            · simp only [Except.ok.injEq] at hp
              exact ⟨hp.symm, by simp, by simp⟩
          · simp only [Bool.not_eq_true] at hwt
            simp only [hwt, eq_self_iff_true, if_true, Bool.false_eq_true, if_false]
            (try dsimp only)
            exact ⟨fun e he c hc => by
                simp [List.mem_append, n1 c, n2 c, n3 c, n4 c, n5 c, n6 c, n7 c] at hc,
              fun c hc => by
                simp [List.mem_append, n1 c, n2 c, n3 c, n4 c, n5 c, n6 c, n7 c] at hc,
              fun p hp => by simp at hp⟩
    · simp only [Bool.not_eq_true] at hcr
      simp only [hcr, eq_self_iff_true, if_true, Bool.false_eq_true, if_false]
      (try dsimp only)
      exact ⟨fun e he c hc => by
          simp [List.mem_append, n1 c, n2 c, n3 c, n4 c, n5 c, n6 c] at hc,
        fun c hc => by
          simp [List.mem_append, n1 c, n2 c, n3 c, n4 c, n5 c, n6 c] at hc,
        fun p hp => by simp at hp⟩
/-- C1: `ensure_self_venv_with_toolchain` writes
`<venv_dir>/tool-version.txt` with the decimal `SELF_VERSION` only after
every earlier provisioning step has succeeded: whenever the call returns an
error, no tool-version write appears in its effect trace, and whenever a
tool-version write appears, the call returned the venv path successfully, the
contents are the decimal `SELF_VERSION`, and the write is the final
observable effect. -/
theorem ensure_self_venv_marker_last (w : World) (st : ProcState) (fs : FS)
    (output : CommandOutput) (tcr : Option PythonVersionRequest) :
    (∀ e, (ensure_self_venv_with_toolchain w st fs output tcr).1 = .error e →
      ∀ c, Event.writeToolVersion c ∉
        (ensure_self_venv_with_toolchain w st fs output tcr).2.1) ∧
    (∀ c, Event.writeToolVersion c ∈
        (ensure_self_venv_with_toolchain w st fs output tcr).2.1 →
      c = Nat.repr SELF_VERSION ∧
      (ensure_self_venv_with_toolchain w st fs output tcr).1 =
        .ok (w.appDir ++ "/self") ∧
      (ensure_self_venv_with_toolchain w st fs output tcr).2.1.getLast? =
        some (Event.writeToolVersion c)) := by
  unfold ensure_self_venv_with_toolchain
  by_cases hv : fs.venvDir = true
  · simp only [hv, eq_self_iff_true, if_true]
    rcases hu : is_up_to_date st fs with ⟨b, st'⟩
    rcases b with _ | _ <;> dsimp only
    case _ =>
      by_cases hrm : w.removeSelfOk = true
      · simp only [hrm, eq_self_iff_true, if_true]
        obtain ⟨P1, P2⟩ := provision_spec w st'
          { venvDir := false, toolVersion := none, shimsDir := fs.shimsDir }
          output tcr
        rcases hp : provision w st'
            { venvDir := false, toolVersion := none, shimsDir := fs.shimsDir }
            output tcr with ⟨r, tr2, st2, fs2⟩
        rw [hp] at P1 P2
        dsimp only
        constructor
        · intro e he c hc
          rcases List.mem_append.mp hc with h12 | h2
          · rcases List.mem_append.mp h12 with h1 | hx
            · exact absurd h1 (by simp)
            · exact absurd hx (by simp)
          · exact P1 e he c h2
        · intro c hc
          have hc2 : Event.writeToolVersion c ∈ tr2 := by
            rcases List.mem_append.mp hc with h12 | h2
            · rcases List.mem_append.mp h12 with h1 | hx
              · exact absurd h1 (by simp)
              · exact absurd hx (by simp)
            · exact h2
          obtain ⟨hcv, hres, hlast⟩ := P2.1 c hc2
          exact ⟨hcv, hres, getLast?_app _ _ _ hlast⟩
      · simp only [Bool.not_eq_true] at hrm
        simp only [hrm, Bool.false_eq_true, if_false]
        exact ⟨fun e he c hc => by simp at hc, fun c hc => by simp at hc⟩
    case _ =>
      exact ⟨fun e he => by simp at he, fun c hc => by simp at hc⟩
  · simp only [Bool.not_eq_true] at hv
    simp only [hv, Bool.false_eq_true, if_false]
    obtain ⟨P1, P2⟩ := provision_spec w st fs output tcr
    exact ⟨P1, P2.1⟩

/-- C1 witness: in the all-success world starting from an empty app dir, the
bootstrap run's final effect is the tool-version write of `"14"`. -/
theorem ensure_self_venv_marker_last_witness :
    (ensure_self_venv_with_toolchain wAll st0 fs0 CommandOutput.Normal
        none).2.1.getLast? = some (Event.writeToolVersion "14") := by
  have h := ensure_self_venv_marker_last wAll st0 fs0 CommandOutput.Normal none
  exact (h.2 "14" (by decide)).2.2

/-! ## C6 -/

/-- Once `FORCED_TO_UPDATE` is set, `is_up_to_date` short-circuits to true. -/
theorem is_up_to_date_forced (st : ProcState) (fs : FS)
    (h : st.forcedToUpdate = true) : (is_up_to_date st fs).1 = true := by
  unfold is_up_to_date
  rcases st.upToDateCache with _ | b <;> dsimp only <;> simp [h]

/-- A true answer from `is_up_to_date` is stable: asking again from the
updated process state (same filesystem) answers true with no state change. -/
theorem is_up_to_date_stable (st st' : ProcState) (fs : FS)
    (h : is_up_to_date st fs = (true, st')) :
    is_up_to_date st' fs = (true, st') := by
  unfold is_up_to_date at h ⊢
  rcases hc : st.upToDateCache with _ | b
  · rw [hc] at h
    dsimp only at h
    injection h with h1 h2
    subst h2
    dsimp only
    simp only [h1]
  · rw [hc] at h
    dsimp only at h
    injection h with h1 h2
    subst h2
    rw [hc]
    dsimp only
    simp only [h1]

/-- C6: calling the orchestrator twice in one process with no external state
change is idempotent — if the first call returns `Ok(p)`, the second call
(from the resulting process state and filesystem) returns the same path `p`
and performs no side effects at all (empty trace, hence no filesystem
writes): either the first call's success set `FORCED_TO_UPDATE`, or the
cached marker check answers true again. -/
theorem ensure_self_venv_idempotent (w : World) (st : ProcState) (fs : FS)
    (output : CommandOutput) (tcr : Option PythonVersionRequest)
    (p : String) (tr1 : List Event) (st1 : ProcState) (fs1 : FS)
    (h : ensure_self_venv_with_toolchain w st fs output tcr =
      (.ok p, tr1, st1, fs1)) :
    (ensure_self_venv_with_toolchain w st1 fs1 output tcr).1 = .ok p ∧
    (ensure_self_venv_with_toolchain w st1 fs1 output tcr).2.1 = [] := by
  unfold ensure_self_venv_with_toolchain at h
  by_cases hv : fs.venvDir = true
  · simp only [hv, eq_self_iff_true, if_true] at h
    rcases hu : is_up_to_date st fs with ⟨b, st'⟩
    rw [hu] at h
    rcases b with _ | _
    · -- stale: removal then provisioning
      dsimp only at h
      by_cases hrm : w.removeSelfOk = true
      · simp only [hrm, eq_self_iff_true, if_true] at h
        rcases hp : provision w st'
            { venvDir := false, toolVersion := none, shimsDir := fs.shimsDir }
            output tcr with ⟨r, tr2, st2, fs2⟩
        rw [hp] at h
        dsimp only at h
        injection h with hr h
        injection h with htr h
        injection h with hst hfs
        obtain ⟨P1, P2, P3⟩ := provision_spec w st'
          { venvDir := false, toolVersion := none, shimsDir := fs.shimsDir }
          output tcr
        rw [hp] at P3
        obtain ⟨hpp, hforced, hvenv⟩ := P3 p hr
        replace hforced : st2.forcedToUpdate = true := hforced
        replace hvenv : fs2.venvDir = true := hvenv
        rw [← hst, ← hfs]
        unfold ensure_self_venv_with_toolchain
        simp only [hvenv, eq_self_iff_true, if_true]
        rcases hu2 : is_up_to_date st2 fs2 with ⟨b2, st3⟩
        have hb2 : b2 = true := by
          have hfd := is_up_to_date_forced st2 fs2 hforced
          rw [hu2] at hfd
          exact hfd
        subst hb2
        exact ⟨by rw [hpp], rfl⟩
      · simp only [Bool.not_eq_true] at hrm
        simp only [hrm, Bool.false_eq_true, if_false] at h
        exact absurd (congrArg Prod.fst h) (by simp)
    · -- fresh: early return
      dsimp only at h
      injection h with hr h
      injection h with htr h
      injection h with hst hfs
      rw [← hst, ← hfs]
      unfold ensure_self_venv_with_toolchain
      simp only [hv, eq_self_iff_true, if_true]
      rw [is_up_to_date_stable st st' fs hu]
      exact ⟨by rw [← hr], rfl⟩
  · simp only [Bool.not_eq_true] at hv
    simp only [hv, Bool.false_eq_true, if_false] at h
    rcases hp : provision w st fs output tcr with ⟨r, tr2, st2, fs2⟩
    rw [hp] at h
    injection h with hr h
    injection h with htr h
    injection h with hst hfs
    obtain ⟨P1, P2, P3⟩ := provision_spec w st fs output tcr
    rw [hp] at P3
    obtain ⟨hpp, hforced, hvenv⟩ := P3 p hr
    replace hforced : st2.forcedToUpdate = true := hforced
    replace hvenv : fs2.venvDir = true := hvenv
    rw [← hst, ← hfs]
    unfold ensure_self_venv_with_toolchain
    simp only [hvenv, eq_self_iff_true, if_true]
    rcases hu2 : is_up_to_date st2 fs2 with ⟨b2, st3⟩
    have hb2 : b2 = true := by
      have hfd := is_up_to_date_forced st2 fs2 hforced
      rw [hu2] at hfd
      exact hfd
    subst hb2
    exact ⟨by rw [hpp], rfl⟩

/-- The result of the first bootstrap call in the all-success world. -/
def firstRun : Except Err String × List Event × ProcState × FS :=
  ensure_self_venv_with_toolchain wAll st0 fs0 CommandOutput.Normal none

/-- C6 witness: after the concrete first call succeeds, the second call
returns the same `app/self` path with an empty effect trace. -/
theorem ensure_self_venv_idempotent_witness :
    (ensure_self_venv_with_toolchain wAll firstRun.2.2.1 firstRun.2.2.2
        CommandOutput.Normal none).1 = .ok "app/self" ∧
    (ensure_self_venv_with_toolchain wAll firstRun.2.2.1 firstRun.2.2.2
        CommandOutput.Normal none).2.1 = [] :=
  ensure_self_venv_idempotent wAll st0 fs0 CommandOutput.Normal none
    "app/self" firstRun.2.1 firstRun.2.2.1 firstRun.2.2.2 rfl

/-! ## C9 -/

/-- C9: a concrete version request (major, minor, patch all present) whose
toolchain python binary already exists on disk makes `fetch` return the
concretized version immediately: the download catalog is never queried and no
network transfer happens — in particular the call succeeds even in worlds
where `get_download_url` would return `None`. -/
theorem fetch_concrete_installed_skips_catalog (w : World)
    (req : PythonVersionRequest) (output : CommandOutput) (v : PythonVersion)
    (h1 : pythonVersionTryFrom w.defaultArch w.defaultOs req = some v)
    (h2 : w.fileExists (w.pyBinPath v) = true) :
    (fetch w req output).1 = .ok v ∧
    Event.catalogQuery ∉ (fetch w req output).2 ∧
    (∀ u, Event.netFetch u ∉ (fetch w req output).2) := by
  unfold fetch
  rw [h1]
  simp only [h2, if_true]
  refine ⟨by simp, ?_, fun u => ?_⟩ <;> split <;> simp

/-- A world whose catalog is empty but whose filesystem has every toolchain
binary. -/
def wNoCatalog : World :=
  { wAll with getDownloadUrl := fun _ => none, fileExists := fun _ => true }

/-- C9 witness: in `wNoCatalog` the catalog has no entry for the concrete
request, yet `fetch` succeeds without consulting it. -/
theorem fetch_concrete_installed_skips_catalog_witness :
    wNoCatalog.getDownloadUrl req3121 = none ∧
    (fetch wNoCatalog req3121 CommandOutput.Normal).1 = .ok v3121 ∧
    Event.catalogQuery ∉ (fetch wNoCatalog req3121 CommandOutput.Normal).2 := by
  have h := fetch_concrete_installed_skips_catalog wNoCatalog req3121
    CommandOutput.Normal v3121 (by decide) rfl
  exact ⟨rfl, h.1, h.2.1⟩

end Rye
